import Mathlib

/-!
Verification of the `semka` semaphore library.

We give a shallow embedding of the library's backends:

* `src/posix.rs` — the POSIX backend with its tri-state lazy-initialization
  state machine (`UNINIT`/`INITING`/`INITED`), modelled sequentially by
  `Semka.PosixSem` and concurrently (two threads racing `init`) by a small-step
  transition system `Semka.Race`.
* `src/win32.rs` — the Windows backend, whose handle field doubles as the
  init state; its timeout-parameter computation and `init` race are modelled.
* `src/mac.rs` — the Mach backend's timeout conversion.
* `src/atomic.rs` — the atomic-boolean binary backend.
* `src/lib.rs` — the `CountingSemaphore` lock/try_lock/guard layer.

OS calls are modelled by their documented effect on the semaphore counter;
fallible syscalls take the outcome (success / errno) as explicit input.
`debug_assert!` failures and `panic!` are both modelled as the aborting
outcome (checked-build semantics).
-/

namespace Semka

/-! ### POSIX backend, sequential model (`src/posix.rs`) -/

/-- `const UNINIT: u8 = 0`. -/
def UNINIT : Nat := 0
/-- `const INITING: u8 = 0b01`. -/
def INITING : Nat := 1
/-- `const INITED: u8 = 0b10`. -/
def INITED : Nat := 2

/-- Sequential state of a POSIX `Sem`: the atomic `state` byte plus the native
`sem_t` counter (the value of the handle once `sem_init` ran). -/
structure PosixSem where
  state : Nat
  count : Nat
deriving DecidableEq, Repr

/-- `Sem::new_uninit`: state `UNINIT`, handle uninitialized (counter irrelevant,
taken as 0). -/
def newUninit : PosixSem := ⟨UNINIT, 0⟩

/-- `Sem::is_init`: whether the state equals `INITED`. -/
def isInit (s : PosixSem) : Bool := s.state == INITED

/-- `Sem::init`, sequential semantics.  `osOk` is the outcome of the
`sem_init` syscall (`res == 0`).  On the CAS win (`state == UNINIT`) the
resource is created with counter `v` and the state published as `INITED`;
on syscall failure the state is reset to `UNINIT` and `false` returned.
If the state is not `UNINIT` (sequentially: already `INITED`), the call
returns `false` leaving the semaphore untouched. -/
def initP (osOk : Bool) (v : Nat) (s : PosixSem) : Bool × PosixSem :=
  if s.state = UNINIT then
    if osOk then (true, ⟨INITED, v⟩)
    else (false, ⟨UNINIT, s.count⟩)
  else
    (false, s)

/-- `Sem::new`: `new_uninit` followed by `init`, `Some` exactly on success. -/
def newP (osOk : Bool) (v : Nat) : Option PosixSem :=
  let r := initP osOk v newUninit
  if r.fst then some r.snd else none

/-- `sem_trywait` semantics behind `Sem::try_wait`: decrement if positive
(returns `true`), otherwise fail with `EAGAIN` (returns `false`). -/
def tryWaitS (s : PosixSem) : Bool × PosixSem :=
  if 0 < s.count then (true, ⟨s.state, s.count - 1⟩) else (false, s)

/-- `sem_post` semantics behind `Sem::signal`: increment the counter. -/
def signalS (s : PosixSem) : PosixSem := ⟨s.state, s.count + 1⟩

/-- `sem_wait` semantics behind `Sem::wait`, sequentially: decrement if
positive; `none` means the call blocks (no signal can arrive). -/
def waitS (s : PosixSem) : Option PosixSem :=
  if 0 < s.count then some ⟨s.state, s.count - 1⟩ else none

/-- `Sem::close`: CAS `INITED → UNINIT`; the resource is destroyed only when
the CAS succeeds.  Returns whether `sem_destroy` was invoked. -/
def closeS (s : PosixSem) : Bool × PosixSem :=
  if s.state = INITED then (true, ⟨UNINIT, s.count⟩) else (false, s)

/-- Results of `n` successive `try_wait` calls. -/
def tryWaitN : Nat → PosixSem → List Bool
  | 0, _ => []
  | n + 1, s =>
    let r := tryWaitS s
    r.fst :: tryWaitN n r.snd

/-! ### `CountingSemaphore` layer (`src/lib.rs`) -/

/-- `CountingSemaphore::lock`: calls `wait` and returns a guard; the guard
carries no state, so the lock result is the post-`wait` semaphore
(`none` = the `wait` blocks). -/
def lockS (s : PosixSem) : Option PosixSem := waitS s

/-- `CountingSemaphore::try_lock`: `try_wait`, guard exactly on `true`. -/
def tryLockS (s : PosixSem) : Option PosixSem :=
  let r := tryWaitS s
  if r.fst then some r.snd else none

/-- `Drop for SemaphoreGuard`: dropping the guard calls `signal`. -/
def guardDrop (s : PosixSem) : PosixSem := signalS s

/-! ### Two threads racing `init`: POSIX small-step model

Each thread runs `Sem::init` on a shared `UNINIT` semaphore (creation
succeeding), decomposed into its atomic steps:
`start` = the `compare_exchange(UNINIT, INITING, SeqCst, Acquire)`;
`create` = the `sem_init` call (the creation event);
`publish` = the `store(INITED, Release)` followed by returning `true`;
`spin` = the loser's `Acquire` load / `await_init` loop, leaving with
`false` once the observed state is no longer `INITING`. -/

/-- Program counter of one thread inside `Sem::init` (POSIX). -/
inductive IPc where
  | start | create | publish | spin | retT | retF
deriving DecidableEq, Repr

/-- Global state of the two-thread POSIX `init` race: the `state` byte,
the number of `sem_init` calls performed, and both threads' positions. -/
structure Race where
  sem : Nat
  created : Nat
  a : IPc
  b : IPc
deriving DecidableEq, Repr

/-- One atomic step of a single thread inside POSIX `Sem::init`;
`none` once the thread has returned. -/
def stepThread (sem created : Nat) (pc : IPc) : Option (Nat × Nat × IPc) :=
  match pc with
  | .start => if sem = UNINIT then some (INITING, created, .create)
              else some (sem, created, .spin)
  | .create => some (sem, created + 1, .publish)
  | .publish => some (INITED, created, .retT)
  | .spin => if sem = INITING then some (sem, created, .spin)
             else some (sem, created, .retF)
  | .retT => none
  | .retF => none

/-- Interleaving successors: either thread takes its next atomic step. -/
def nextStates (g : Race) : List Race :=
  (match stepThread g.sem g.created g.a with
   | some (s, c, pc) => [⟨s, c, pc, g.b⟩]
   | none => []) ++
  (match stepThread g.sem g.created g.b with
   | some (s, c, pc) => [⟨s, c, g.a, pc⟩]
   | none => [])

/-- Reachability from the shared uninitialized semaphore with both threads
about to call `init`. -/
inductive ReachP : Race → Prop where
  | init : ReachP ⟨UNINIT, 0, .start, .start⟩
  | step {g g' : Race} : ReachP g → g' ∈ nextStates g → ReachP g'

/-- The reachable states of the POSIX `init` race (closed under
`nextStates`, checked in `reachListP_closed`). -/
def reachListP : List Race :=
  [⟨0, 0, .start, .start⟩,
   ⟨1, 0, .create, .start⟩, ⟨1, 0, .start, .create⟩,
   ⟨1, 1, .publish, .start⟩, ⟨1, 1, .start, .publish⟩,
   ⟨2, 1, .retT, .start⟩, ⟨2, 1, .start, .retT⟩,
   ⟨2, 1, .retT, .retF⟩, ⟨2, 1, .retT, .spin⟩,
   ⟨1, 1, .publish, .spin⟩, ⟨1, 0, .create, .spin⟩,
   ⟨1, 0, .spin, .create⟩, ⟨1, 1, .spin, .publish⟩,
   ⟨2, 1, .spin, .retT⟩, ⟨2, 1, .retF, .retT⟩]

theorem reachListP_closed :
    ∀ g ∈ reachListP, ∀ g' ∈ nextStates g, g' ∈ reachListP := by decide

theorem reachP_mem (g : Race) (h : ReachP g) : g ∈ reachListP := by
  induction h with
  | init => decide
  | step _ hmem ih => exact reachListP_closed _ ih _ hmem

/-- Whether a thread has returned from `init`. -/
def isRet : IPc → Bool
  | .retT => true
  | .retF => true
  | _ => false

/-- Whether a thread returned `true` from `init`. -/
def retTrue : IPc → Bool
  | .retT => true
  | _ => false

/-! ### Two threads racing `init`: Win32 model (`src/win32.rs`)

`check` = the null check on the `Acquire` load of the handle;
`create` = the `CreateSemaphoreW` call (creation event, yielding a non-null
handle, modelled as `1`); `cas` = the `compare_exchange(null, handle, ...)`,
whose loser calls `CloseHandle` on its surplus handle and returns `false`. -/

/-- Program counter of one thread inside `Sem::init` (Win32). -/
inductive WPc where
  | check | create | cas | retT | retF
deriving DecidableEq, Repr

/-- Global state of the two-thread Win32 `init` race: the shared handle
(0 = null), the number of `CreateSemaphoreW` calls, the number of
`CloseHandle` calls on surplus handles, and both threads' positions. -/
structure WRace where
  handle : Nat
  created : Nat
  closed : Nat
  a : WPc
  b : WPc
deriving DecidableEq, Repr

/-- One atomic step of a single thread inside Win32 `Sem::init`. -/
def stepW (h c cl : Nat) (pc : WPc) : Option (Nat × Nat × Nat × WPc) :=
  match pc with
  | .check => if h = 0 then some (h, c, cl, .create) else some (h, c, cl, .retF)
  | .create => some (h, c + 1, cl, .cas)
  | .cas => if h = 0 then some (1, c, cl, .retT) else some (h, c, cl + 1, .retF)
  | .retT => none
  | .retF => none

/-- Interleaving successors for the Win32 race. -/
def nextW (g : WRace) : List WRace :=
  (match stepW g.handle g.created g.closed g.a with
   | some (h, c, cl, pc) => [⟨h, c, cl, pc, g.b⟩]
   | none => []) ++
  (match stepW g.handle g.created g.closed g.b with
   | some (h, c, cl, pc) => [⟨h, c, cl, g.a, pc⟩]
   | none => [])

/-- Reachability for the Win32 `init` race from a shared null handle. -/
inductive ReachW : WRace → Prop where
  | init : ReachW ⟨0, 0, 0, .check, .check⟩
  | step {g g' : WRace} : ReachW g → g' ∈ nextW g → ReachW g'

/-- The reachable states of the Win32 `init` race (closed under `nextW`,
checked in `reachListW_closed`). -/
def reachListW : List WRace :=
  [⟨0, 0, 0, .check, .check⟩,
   ⟨0, 0, 0, .create, .check⟩, ⟨0, 0, 0, .check, .create⟩,
   ⟨0, 1, 0, .cas, .check⟩, ⟨0, 0, 0, .create, .create⟩,
   ⟨0, 1, 0, .check, .cas⟩, ⟨1, 1, 0, .retT, .check⟩,
   ⟨0, 1, 0, .cas, .create⟩, ⟨0, 1, 0, .create, .cas⟩,
   ⟨1, 1, 0, .check, .retT⟩, ⟨1, 1, 0, .retT, .retF⟩,
   ⟨1, 1, 0, .retT, .create⟩, ⟨0, 2, 0, .cas, .cas⟩,
   ⟨1, 1, 0, .create, .retT⟩, ⟨1, 1, 0, .retF, .retT⟩,
   ⟨1, 2, 0, .retT, .cas⟩, ⟨1, 2, 0, .cas, .retT⟩,
   ⟨1, 2, 1, .retT, .retF⟩, ⟨1, 2, 1, .retF, .retT⟩]

theorem reachListW_closed :
    ∀ g ∈ reachListW, ∀ g' ∈ nextW g, g' ∈ reachListW := by decide

theorem reachW_mem (g : WRace) (h : ReachW g) : g ∈ reachListW := by
  induction h with
  | init => decide
  | step _ hmem ih => exact reachListW_closed _ ih _ hmem

/-- Whether a thread has returned from Win32 `init`. -/
def isRetW : WPc → Bool
  | .retT => true
  | .retF => true
  | _ => false

/-- Whether a thread returned `true` from Win32 `init`. -/
def retTrueW : WPc → Bool
  | .retT => true
  | _ => false

/-! ### Syscall outcome model for the POSIX wait loops

Each syscall attempt either succeeds (`res == 0`) or fails with an errno;
the embedded loops consume the list of attempt outcomes.  `debug_assert!`
failure and `panic!` are both the `panicked` outcome; `pending` means the
loop is still retrying when the outcome list runs out. -/

/-- The errno classifications distinguished by `src/posix.rs`. -/
inductive Errno where
  | eintr | eagain | ewouldblock | etimedout | eother
deriving DecidableEq, Repr

/-- Outcome of one syscall attempt. -/
inductive SysRes where
  | ok
  | fail (e : Errno)
deriving DecidableEq, Repr

/-- Outcome of a whole wait loop. -/
inductive Out where
  | pending
  | ret (b : Bool)
  | panicked
deriving DecidableEq, Repr

/-- The `Sem::wait` loop: retry on `EINTR`; `debug_assert` (abort) on any
other errno; stop on success. -/
def waitRun : List SysRes → Out
  | [] => .pending
  | .ok :: _ => .ret true
  | .fail e :: rest => if e = .eintr then waitRun rest else .panicked

/-- The `Sem::try_wait` loop: `EAGAIN`/`EWOULDBLOCK` yield `false`; `EINTR`
retries; any other errno aborts (`debug_assert`); success yields `true`. -/
def tryRun : List SysRes → Out
  | [] => .pending
  | .ok :: _ => .ret true
  | .fail e :: rest =>
    if e = .eagain ∨ e = .ewouldblock then .ret false
    else if e = .eintr then tryRun rest
    else .panicked

/-! ### POSIX `wait_timeout` deadline arithmetic (`src/posix.rs`) -/

/-- `i64::MIN`. -/
def I64MIN : Int := -9223372036854775808
/-- `i64::MAX`. -/
def I64MAX : Int := 9223372036854775807

/-- `i64::saturating_add`. -/
def satAddI64 (a b : Int) : Int :=
  if a + b < I64MIN then I64MIN
  else if I64MAX < a + b then I64MAX
  else a + b

/-- The `u64 as i64` cast (`duration.as_secs() as _`): wraps modulo `2^64`. -/
def u64AsI64 (n : Nat) : Int :=
  if n < 9223372036854775808 then (n : Int)
  else (n : Int) - 18446744073709551616

/-- `libc::timespec` as filled by `clock_gettime` / the deadline arithmetic. -/
structure TimeSpec where
  sec : Int
  nsec : Int
deriving DecidableEq, Repr

/-- `core::time::Duration`: whole seconds and subsecond nanoseconds
(normalized, `nanos < 10^9`). -/
structure Duration where
  secs : Nat
  nanos : Nat
deriving DecidableEq, Repr

/-- The absolute-deadline computation of `Sem::wait_timeout`:
`tv_sec = tv_sec.saturating_add(d.as_secs() as i64)`,
`tv_nsec = tv_nsec.saturating_add(d.subsec_nanos() as i64)`, then the carry:
`if tv_nsec > 999999999 { tv_nsec = 0; tv_sec = tv_sec.saturating_add(1) }`. -/
def computeDeadline (now : TimeSpec) (d : Duration) : TimeSpec :=
  let s := satAddI64 now.sec (u64AsI64 d.secs)
  let n := satAddI64 now.nsec (d.nanos : Int)
  if 999999999 < n then ⟨satAddI64 s 1, 0⟩ else ⟨s, n⟩

/-- The `sem_timedwait` loop of `Sem::wait_timeout` with the deadline it
passes at each attempt recorded: `EAGAIN`/`EWOULDBLOCK`/`ETIMEDOUT` yield
`false`; `EINTR` retries (the `timeout` variable is not touched inside the
loop); any other errno panics; success yields `true`. -/
def timedRun (dl : TimeSpec) : List SysRes → Out × List TimeSpec
  | [] => (.pending, [])
  | .ok :: _ => (.ret true, [dl])
  | .fail e :: rest =>
    if e = .eagain ∨ e = .ewouldblock ∨ e = .etimedout then (.ret false, [dl])
    else if e = .eintr then
      let r := timedRun dl rest
      (r.fst, dl :: r.snd)
    else (.panicked, [dl])

/-- `Sem::wait_timeout` (POSIX): compute the absolute deadline once, then
run the retry loop against it. -/
def waitTimeoutPosix (now : TimeSpec) (d : Duration) (atts : List SysRes) :
    Out × List TimeSpec :=
  timedRun (computeDeadline now d) atts

/-! ### Win32 timeout model (`src/win32.rs`) -/

/-- `WAIT_OBJECT_0`. -/
def WAITOBJECT0 : Nat := 0
/-- `WAIT_TIMEOUT` (`0x102`). -/
def WAITTIMEDOUT : Nat := 258
/-- `INFINITE` (`0xFFFFFFFF`), the unbounded-wait marker of
`WaitForSingleObject`. -/
def INFINITE : Nat := 4294967295

/-- `Duration::as_millis` (exact in `u128`). -/
def asMillis (d : Duration) : Nat := d.secs * 1000 + d.nanos / 1000000

/-- The millisecond parameter `timeout.as_millis().try_into().unwrap_or(u32::MAX)`
passed to `WaitForSingleObject`. -/
def win32TimeoutMs (d : Duration) : Nat :=
  if asMillis d ≤ 4294967295 then asMillis d else 4294967295

/-- `Sem::wait_timeout` (Win32): `resp` is the `WaitForSingleObject` response
for a given millisecond parameter (the abstract semaphore/kernel state);
`WAIT_OBJECT_0 → true`, `WAIT_TIMEOUT → false`, anything else panics. -/
def waitTimeoutW (resp : Nat → Nat) (d : Duration) : Out :=
  if resp (win32TimeoutMs d) = WAITOBJECT0 then .ret true
  else if resp (win32TimeoutMs d) = WAITTIMEDOUT then .ret false
  else .panicked

/-- `Sem::try_wait` (Win32): `self.wait_timeout(Duration::from_secs(0))`. -/
def tryWaitW (resp : Nat → Nat) : Out := waitTimeoutW resp ⟨0, 0⟩

/-! ### Mach timeout model (`src/mac.rs`) -/

/-- The `TimeSpec` handed to `semaphore_timedwait`:
`c_uint::try_from(secs).unwrap_or(c_uint::MAX)` and
`c_int::try_from(subsec_nanos).unwrap_or(c_int::MAX)`. -/
def macTimeSpec (d : Duration) : Nat × Nat :=
  (min d.secs 4294967295, min d.nanos 2147483647)

/-- `Sem::wait_timeout` (Mach): `resp` is the `semaphore_timedwait` result for
a given timespec; `0 → true`, `KERN_OPERATION_TIMED_OUT (49) → false`, any
other result fails the `debug_assert`. -/
def waitTimeoutM (resp : Nat × Nat → Int) (d : Duration) : Out :=
  if resp (macTimeSpec d) = 0 then .ret true
  else if resp (macTimeSpec d) = 49 then .ret false
  else .panicked

/-- `Sem::try_wait` (Mach): `self.wait_timeout(Duration::from_secs(0))`. -/
def tryWaitM (resp : Nat × Nat → Int) : Out := waitTimeoutM resp ⟨0, 0⟩

/-! ### Atomic-boolean binary backend (`src/atomic.rs`) -/

/-- `AtomicBool::compare_and_swap(current, new)` on state `st`: stores `nw`
when `st` matches `current` and returns the previous value. -/
def compareAndSwap (current nw st : Bool) : Bool × Bool :=
  (st, if st = current then nw else st)

/-- `Sem::try_wait` (atomic): `compare_and_swap(true, false, SeqCst)` —
returns the previous value, and the only transition it ever performs is
`true → false`. -/
def atomicTryWait (st : Bool) : Bool × Bool := compareAndSwap true false st

/-- `Sem::signal` (atomic): `store(true, SeqCst)`. -/
def atomicSignal (_st : Bool) : Bool := true

/-- `BinarySemaphore::new` for the atomic backend: `Self::new(false)`. -/
def atomicNew : Bool := false

/-- The `BinarySemaphore::lock` loop `while self.try_wait() { spin_loop_hint(); }`
run sequentially with fuel; `some st` is the state when the loop exits and
`lock` returns its guard, `none` means the fuel ran out. -/
def lockLoop : Nat → Bool → Option Bool
  | 0, _ => none
  | n + 1, st =>
    let r := atomicTryWait st
    if r.fst then lockLoop n r.snd else some r.snd

end Semka

namespace Semka

/-! ### Theorems: sequential POSIX claims -/

/-- C1: on an uninitialized semaphore the first (successful) `init` returns
`true` and publishes `INITED` with the requested count; a second `init`
returns `false` and leaves the semaphore exactly as the single
initialization left it, still usable (`try_wait` reflects the count). -/
theorem init_first_true_second_false (v w : Nat) (s : PosixSem)
    (h : s.state = UNINIT) :
    (initP true v s).fst = true ∧
    (initP true v s).snd.state = INITED ∧
    (initP true v s).snd.count = v ∧
    initP true w (initP true v s).snd = (false, (initP true v s).snd) ∧
    isInit (initP true v s).snd = true ∧
    (tryWaitS (initP true v s).snd).fst = decide (0 < v) := by
  have h1 : initP true v s = (true, ⟨INITED, v⟩) := by simp [initP, h]
  rw [h1]
  refine ⟨rfl, rfl, rfl, by simp [initP, INITED, UNINIT], rfl, ?_⟩
  by_cases hv : 0 < v <;> simp [tryWaitS, hv]

/-- Witness for C1 at `v = 1`, `w = 5`, `s = newUninit`. -/
theorem init_first_true_second_false_witness :
    (initP true 1 newUninit).fst = true ∧
    (initP true 1 newUninit).snd.state = INITED ∧
    (initP true 1 newUninit).snd.count = 1 ∧
    initP true 5 (initP true 1 newUninit).snd = (false, (initP true 1 newUninit).snd) ∧
    isInit (initP true 1 newUninit).snd = true ∧
    (tryWaitS (initP true 1 newUninit).snd).fst = decide (0 < 1) :=
  init_first_true_second_false 1 5 newUninit (by decide)

/-- C3: `close` on an initialized semaphore destroys the resource and moves to
`UNINIT`; a second `close` destroys nothing and changes nothing; `init` after
`close` succeeds again and resets the count to the newly supplied value. -/
theorem close_idempotent_then_reinit (w : Nat) (s : PosixSem)
    (h : s.state = INITED) :
    (closeS s).fst = true ∧
    (closeS s).snd.state = UNINIT ∧
    closeS (closeS s).snd = (false, (closeS s).snd) ∧
    (initP true w (closeS s).snd).fst = true ∧
    (initP true w (closeS s).snd).snd.count = w ∧
    (initP true w (closeS s).snd).snd.state = INITED := by
  simp [closeS, h, initP, INITED, UNINIT]

/-- Witness for C3 at `s = ⟨INITED, 3⟩`, `w = 7`. -/
theorem close_idempotent_then_reinit_witness :
    (closeS ⟨INITED, 3⟩).fst = true ∧
    (closeS ⟨INITED, 3⟩).snd.state = UNINIT ∧
    closeS (closeS ⟨INITED, 3⟩).snd = (false, (closeS ⟨INITED, 3⟩).snd) ∧
    (initP true 7 (closeS ⟨INITED, 3⟩).snd).fst = true ∧
    (initP true 7 (closeS ⟨INITED, 3⟩).snd).snd.count = 7 ∧
    (initP true 7 (closeS ⟨INITED, 3⟩).snd).snd.state = INITED :=
  close_idempotent_then_reinit 7 ⟨INITED, 3⟩ rfl

/-- Each of the first `c` `try_wait` calls on a count-`c` semaphore yields
`true` and the next yields `false`. -/
theorem tryWaitN_replicate (st : Nat) :
    ∀ c : Nat, tryWaitN (c + 1) ⟨st, c⟩ = List.replicate c true ++ [false] := by
  intro c
  induction c with
  | zero => simp [tryWaitN, tryWaitS]
  | succ n ih =>
    simp [tryWaitN, tryWaitS, List.replicate_succ]
    exact ih

/-- C4: constructing with initial count `N`, the first `N` `try_wait` calls
all return `true` and the `(N+1)`-th returns `false`. -/
theorem counting_try_wait_exhausts (N : Nat) :
    (newP true N).map (tryWaitN (N + 1)) =
      some (List.replicate N true ++ [false]) := by
  simp [newP, initP, newUninit, UNINIT]
  exact tryWaitN_replicate INITED N

/-- Witness for C4 at `N = 3`. -/
theorem counting_try_wait_exhausts_witness :
    (newP true 3).map (tryWaitN (3 + 1)) =
      some (List.replicate 3 true ++ [false]) :=
  counting_try_wait_exhausts 3

/-- C5: the documented lock/guard scenario: `new(0)`; `try_lock` is `None`;
two `signal`s; `lock` succeeds; `try_wait` is `true` then `false`; dropping
the guard signals, so a further `try_wait` is `true` again. -/
theorem lock_guard_scenario :
    newP true 0 = some ⟨INITED, 0⟩ ∧
    tryLockS ⟨INITED, 0⟩ = none ∧
    signalS (signalS ⟨INITED, 0⟩) = ⟨INITED, 2⟩ ∧
    lockS ⟨INITED, 2⟩ = some ⟨INITED, 1⟩ ∧
    tryWaitS ⟨INITED, 1⟩ = (true, ⟨INITED, 0⟩) ∧
    tryWaitS ⟨INITED, 0⟩ = (false, ⟨INITED, 0⟩) ∧
    guardDrop ⟨INITED, 0⟩ = ⟨INITED, 1⟩ ∧
    tryWaitS (guardDrop ⟨INITED, 0⟩) = (true, ⟨INITED, 0⟩) := by
  refine ⟨?_, ?_, ?_, ?_, ?_, ?_, ?_, ?_⟩ <;> rfl

/-! ### Theorems: the `init` race (C2) -/

/-- C2 counterexample: on the Win32 backend the `init` race can create the
native resource twice.  The interleaving where both threads pass the null
check before either creates reaches a terminal state with two
`CreateSemaphoreW` calls (the surplus handle being closed by the loser). -/
theorem win32_race_creates_twice :
    ReachW ⟨1, 2, 1, .retT, .retF⟩ ∧
    (⟨1, 2, 1, .retT, .retF⟩ : WRace).created = 2 := by
  refine ⟨?_, rfl⟩
  have h0 : ReachW ⟨0, 0, 0, .check, .check⟩ := ReachW.init
  have h1 : ReachW ⟨0, 0, 0, .create, .check⟩ := h0.step (by decide)
  have h2 : ReachW ⟨0, 0, 0, .create, .create⟩ := h1.step (by decide)
  have h3 : ReachW ⟨0, 1, 0, .cas, .create⟩ := h2.step (by decide)
  have h4 : ReachW ⟨0, 2, 0, .cas, .cas⟩ := h3.step (by decide)
  have h5 : ReachW ⟨1, 2, 0, .retT, .cas⟩ := h4.step (by decide)
  exact h5.step (by decide)

/-- C2 (amended): in the two-thread `init` race, on the POSIX backend the
resource is created at most once in every reachable state, and once both
threads have returned exactly one of them returned `true`, the state is
`INITED` (so `is_init()` is observed `true` by both) and exactly one
creation occurred.  On the Win32 backend, once both threads have returned,
exactly one returned `true`, the published handle is the non-null one, and
although up to two `CreateSemaphoreW` calls may have occurred, every
creation beyond the first has been destroyed again (`created = closed + 1`),
so exactly one native resource remains. -/
theorem init_race_exactly_one (g : Race) (w : WRace)
    (hg : ReachP g) (hw : ReachW w) :
    g.created ≤ 1 ∧
    ((isRet g.a && isRet g.b) = true →
      (retTrue g.a ^^ retTrue g.b) = true ∧ g.sem = INITED ∧ g.created = 1) ∧
    w.created ≤ 2 ∧
    ((isRetW w.a && isRetW w.b) = true →
      (retTrueW w.a ^^ retTrueW w.b) = true ∧ w.handle = 1 ∧
      w.created = w.closed + 1) := by
  have hp : ∀ x ∈ reachListP,
      x.created ≤ 1 ∧
      ((isRet x.a && isRet x.b) = true →
        (retTrue x.a ^^ retTrue x.b) = true ∧ x.sem = INITED ∧
        x.created = 1) := by decide
  have hq : ∀ x ∈ reachListW,
      x.created ≤ 2 ∧
      ((isRetW x.a && isRetW x.b) = true →
        (retTrueW x.a ^^ retTrueW x.b) = true ∧ x.handle = 1 ∧
        x.created = x.closed + 1) := by decide
  have h1 := hp g (reachP_mem g hg)
  have h2 := hq w (reachW_mem w hw)
  exact ⟨h1.1, h1.2, h2.1, h2.2⟩

/-- Witness for C2 (amended) at terminal states of both races, reached by
explicit interleavings. -/
theorem init_race_exactly_one_witness :
    (⟨2, 1, .retT, .retF⟩ : Race).created ≤ 1 ∧
    ((isRet (⟨2, 1, .retT, .retF⟩ : Race).a &&
        isRet (⟨2, 1, .retT, .retF⟩ : Race).b) = true →
      (retTrue (⟨2, 1, .retT, .retF⟩ : Race).a ^^
        retTrue (⟨2, 1, .retT, .retF⟩ : Race).b) = true ∧
      (⟨2, 1, .retT, .retF⟩ : Race).sem = INITED ∧
      (⟨2, 1, .retT, .retF⟩ : Race).created = 1) ∧
    (⟨1, 1, 0, .retT, .retF⟩ : WRace).created ≤ 2 ∧
    ((isRetW (⟨1, 1, 0, .retT, .retF⟩ : WRace).a &&
        isRetW (⟨1, 1, 0, .retT, .retF⟩ : WRace).b) = true →
      (retTrueW (⟨1, 1, 0, .retT, .retF⟩ : WRace).a ^^
        retTrueW (⟨1, 1, 0, .retT, .retF⟩ : WRace).b) = true ∧
      (⟨1, 1, 0, .retT, .retF⟩ : WRace).handle = 1 ∧
      (⟨1, 1, 0, .retT, .retF⟩ : WRace).created =
        (⟨1, 1, 0, .retT, .retF⟩ : WRace).closed + 1) := by
  have hg : ReachP ⟨2, 1, .retT, .retF⟩ := by
    have p0 : ReachP ⟨0, 0, .start, .start⟩ := ReachP.init
    have p1 : ReachP ⟨1, 0, .create, .start⟩ := p0.step (by decide)
    have p2 : ReachP ⟨1, 1, .publish, .start⟩ := p1.step (by decide)
    have p3 : ReachP ⟨2, 1, .retT, .start⟩ := p2.step (by decide)
    have p4 : ReachP ⟨2, 1, .retT, .spin⟩ := p3.step (by decide)
    exact p4.step (by decide)
  have hw : ReachW ⟨1, 1, 0, .retT, .retF⟩ := by
    have q0 : ReachW ⟨0, 0, 0, .check, .check⟩ := ReachW.init
    have q1 : ReachW ⟨0, 0, 0, .create, .check⟩ := q0.step (by decide)
    have q2 : ReachW ⟨0, 1, 0, .cas, .check⟩ := q1.step (by decide)
    have q3 : ReachW ⟨1, 1, 0, .retT, .check⟩ := q2.step (by decide)
    exact q3.step (by decide)
  exact init_race_exactly_one ⟨2, 1, .retT, .retF⟩ ⟨1, 1, 0, .retT, .retF⟩ hg hw

/-! ### Theorems: error classification (C6) -/

theorem waitRun_eintr_skip (n : Nat) (rest : List SysRes) :
    waitRun (List.replicate n (.fail .eintr) ++ rest) = waitRun rest := by
  induction n with
  | zero => rfl
  | succ k ih => simpa [List.replicate_succ, waitRun] using ih

theorem tryRun_eintr_skip (n : Nat) (rest : List SysRes) :
    tryRun (List.replicate n (.fail .eintr) ++ rest) = tryRun rest := by
  induction n with
  | zero => rfl
  | succ k ih => simpa [List.replicate_succ, tryRun] using ih

theorem timedRun_eintr_skip (dl : TimeSpec) (n : Nat) (rest : List SysRes) :
    (timedRun dl (List.replicate n (.fail .eintr) ++ rest)).fst =
      (timedRun dl rest).fst := by
  induction n with
  | zero => rfl
  | succ k ih => simpa [List.replicate_succ, timedRun] using ih

/-- C6: in all three wait loops an `EINTR` classification is retried
internally and never influences the outcome; `EAGAIN`/`EWOULDBLOCK`
(`try_wait`) and additionally `ETIMEDOUT` (`wait_timeout`) surface as the
boolean `false`; any classification outside the expected set of the given
call aborts instead of being retried or returned. -/
theorem errno_classification (n : Nat) (rest : List SysRes) (e : Errno)
    (dl : TimeSpec)
    (hw : e ≠ .eintr)
    (ht : e ≠ .eintr ∧ e ≠ .eagain ∧ e ≠ .ewouldblock)
    (hm : e ≠ .eintr ∧ e ≠ .eagain ∧ e ≠ .ewouldblock ∧ e ≠ .etimedout) :
    waitRun (List.replicate n (.fail .eintr) ++ rest) = waitRun rest ∧
    tryRun (List.replicate n (.fail .eintr) ++ rest) = tryRun rest ∧
    (timedRun dl (List.replicate n (.fail .eintr) ++ rest)).fst =
      (timedRun dl rest).fst ∧
    waitRun (.ok :: rest) = .ret true ∧
    tryRun (.ok :: rest) = .ret true ∧
    (timedRun dl (.ok :: rest)).fst = .ret true ∧
    tryRun (.fail .eagain :: rest) = .ret false ∧
    tryRun (.fail .ewouldblock :: rest) = .ret false ∧
    (timedRun dl (.fail .eagain :: rest)).fst = .ret false ∧
    (timedRun dl (.fail .ewouldblock :: rest)).fst = .ret false ∧
    (timedRun dl (.fail .etimedout :: rest)).fst = .ret false ∧
    waitRun (.fail e :: rest) = .panicked ∧
    tryRun (.fail e :: rest) = .panicked ∧
    (timedRun dl (.fail e :: rest)).fst = .panicked := by
  refine ⟨waitRun_eintr_skip n rest, tryRun_eintr_skip n rest,
    timedRun_eintr_skip dl n rest, rfl, rfl, rfl, rfl, rfl, rfl, rfl, rfl,
    ?_, ?_, ?_⟩
  · simp [waitRun, hw]
  · cases e <;> simp_all [tryRun]
  · cases e <;> simp_all [timedRun]

/-- Witness for C6 at `n = 2`, `rest = []`, `e = eother`, `dl = ⟨0, 0⟩`. -/
theorem errno_classification_witness :
    waitRun (List.replicate 2 (.fail .eintr) ++ []) = waitRun [] ∧
    tryRun (List.replicate 2 (.fail .eintr) ++ []) = tryRun [] ∧
    (timedRun ⟨0, 0⟩ (List.replicate 2 (.fail .eintr) ++ [])).fst =
      (timedRun ⟨0, 0⟩ []).fst ∧
    waitRun (.ok :: []) = .ret true ∧
    tryRun (.ok :: []) = .ret true ∧
    (timedRun ⟨0, 0⟩ (.ok :: [])).fst = .ret true ∧
    tryRun (.fail .eagain :: []) = .ret false ∧
    tryRun (.fail .ewouldblock :: []) = .ret false ∧
    (timedRun ⟨0, 0⟩ (.fail .eagain :: [])).fst = .ret false ∧
    (timedRun ⟨0, 0⟩ (.fail .ewouldblock :: [])).fst = .ret false ∧
    (timedRun ⟨0, 0⟩ (.fail .etimedout :: [])).fst = .ret false ∧
    waitRun (.fail .eother :: []) = .panicked ∧
    tryRun (.fail .eother :: []) = .panicked ∧
    (timedRun ⟨0, 0⟩ (.fail .eother :: [])).fst = .panicked :=
  errno_classification 2 [] .eother ⟨0, 0⟩ (by decide) (by decide) (by decide)

/-! ### Theorems: POSIX deadline arithmetic (C7) -/

theorem timedRun_trace_const (dl : TimeSpec) (atts : List SysRes) :
    ∀ t ∈ (timedRun dl atts).snd, t = dl := by
  induction atts with
  | nil => intro t ht; simp [timedRun] at ht
  | cons a rest ih =>
    intro t ht
    cases a with
    | ok => simp [timedRun] at ht; exact ht
    | fail e =>
      by_cases h1 : e = .eagain ∨ e = .ewouldblock ∨ e = .etimedout
      · simp [timedRun, h1] at ht; exact ht
      · by_cases h2 : e = .eintr
        · simp [timedRun, h1, h2] at ht
          rcases ht with ht | ht
          · exact ht
          · exact ih t ht
        · simp [timedRun, h1, h2] at ht; exact ht

/-- C7 counterexample: for a duration of `2^63` whole seconds the `u64 → i64`
cast in `tv_sec.saturating_add(duration.as_secs() as _)` wraps to `-2^63`, so
the computed deadline is `i64::MIN` seconds — not the saturated sum
`clock + d` (which would be `i64::MAX`) demanded by the claim. -/
theorem deadline_wraps_for_huge_secs :
    (computeDeadline ⟨0, 0⟩ ⟨9223372036854775808, 0⟩).sec = I64MIN ∧
    (computeDeadline ⟨0, 0⟩ ⟨9223372036854775808, 0⟩).sec ≠
      max I64MIN (min ((0 : Int) + 9223372036854775808) I64MAX) := by
  constructor <;> decide

/-- C7 (amended): for every duration whose whole-second count is below `2^63`
(beyond that the `u64 as i64` cast wraps), `wait_timeout` computes exactly one
absolute deadline equal to the real-time clock plus the duration with the
seconds added saturating at `i64::MAX`, carrying one second and zeroing the
nanosecond field when the accumulated nanoseconds reach `10^9`; every retry
of the loop passes this same original deadline to `sem_timedwait`. -/
theorem deadline_exact (now : TimeSpec) (d : Duration) (atts : List SysRes)
    (hsec1 : I64MIN ≤ now.sec) (hsec2 : now.sec ≤ I64MAX)
    (hn1 : 0 ≤ now.nsec) (hn2 : now.nsec ≤ 999999999)
    (hd : d.secs < 9223372036854775808)
    (hdn : d.nanos ≤ 999999999) :
    (now.nsec + (d.nanos : Int) ≤ 999999999 →
      computeDeadline now d =
        ⟨if I64MAX < now.sec + (d.secs : Int) then I64MAX
          else now.sec + (d.secs : Int),
         now.nsec + (d.nanos : Int)⟩) ∧
    (999999999 < now.nsec + (d.nanos : Int) →
      computeDeadline now d =
        ⟨if I64MAX < now.sec + (d.secs : Int) + 1 then I64MAX
          else now.sec + (d.secs : Int) + 1,
         0⟩) ∧
    (∀ t ∈ (waitTimeoutPosix now d atts).snd, t = computeDeadline now d) := by
  have hcast : u64AsI64 d.secs = (d.secs : Int) := by
    simp [u64AsI64, hd]
  have hdsecs : (0 : Int) ≤ (d.secs : Int) := Int.natCast_nonneg _
  have hdnanos : (0 : Int) ≤ (d.nanos : Int) := Int.natCast_nonneg _
  have hdnanos2 : (d.nanos : Int) ≤ 999999999 := by exact_mod_cast hdn
  simp only [I64MIN] at hsec1
  simp only [I64MAX] at hsec2
  have hnc : satAddI64 now.nsec (d.nanos : Int) = now.nsec + (d.nanos : Int) := by
    simp only [satAddI64, I64MIN, I64MAX]
    split_ifs <;> omega
  have hsc : satAddI64 now.sec (d.secs : Int) =
      if I64MAX < now.sec + (d.secs : Int) then I64MAX
      else now.sec + (d.secs : Int) := by
    simp only [satAddI64, I64MIN, I64MAX]
    split_ifs <;> omega
  have hsc1 : satAddI64 (satAddI64 now.sec (d.secs : Int)) 1 =
      if I64MAX < now.sec + (d.secs : Int) + 1 then I64MAX
      else now.sec + (d.secs : Int) + 1 := by
    rw [hsc]
    simp only [satAddI64, I64MIN, I64MAX]
    split_ifs <;> omega
  refine ⟨?_, ?_, timedRun_trace_const _ atts⟩
  · intro hle
    simp only [computeDeadline, hcast, hnc]
    rw [if_neg (not_lt.mpr hle), hsc]
  · intro hgt
    simp only [computeDeadline, hcast, hnc]
    rw [if_pos hgt, hsc1]

/-- Witness for C7 (amended) at `now = ⟨100, 999999998⟩`,
`d = ⟨5, 3⟩`, one `EINTR` retry then success. -/
theorem deadline_exact_witness :
    ((⟨100, 999999998⟩ : TimeSpec).nsec + ((3 : Nat) : Int) ≤ 999999999 →
      computeDeadline ⟨100, 999999998⟩ ⟨5, 3⟩ =
        ⟨if I64MAX < (⟨100, 999999998⟩ : TimeSpec).sec + ((5 : Nat) : Int)
            then I64MAX
          else (⟨100, 999999998⟩ : TimeSpec).sec + ((5 : Nat) : Int),
         (⟨100, 999999998⟩ : TimeSpec).nsec + ((3 : Nat) : Int)⟩) ∧
    (999999999 < (⟨100, 999999998⟩ : TimeSpec).nsec + ((3 : Nat) : Int) →
      computeDeadline ⟨100, 999999998⟩ ⟨5, 3⟩ =
        ⟨if I64MAX < (⟨100, 999999998⟩ : TimeSpec).sec + ((5 : Nat) : Int) + 1
            then I64MAX
          else (⟨100, 999999998⟩ : TimeSpec).sec + ((5 : Nat) : Int) + 1,
         0⟩) ∧
    (∀ t ∈ (waitTimeoutPosix ⟨100, 999999998⟩ ⟨5, 3⟩
        [.fail .eintr, .ok]).snd, t = computeDeadline ⟨100, 999999998⟩ ⟨5, 3⟩) :=
  deadline_exact ⟨100, 999999998⟩ ⟨5, 3⟩ [.fail .eintr, .ok]
    (by decide) (by decide) (by decide) (by decide) (by decide) (by decide)

/-! ### Theorems: Win32 timeout clamp (C8) -/

/-- C8 counterexample: a duration of `4294968` seconds exceeds what the API
can represent, and the clamped millisecond parameter is exactly `INFINITE` —
the unbounded-wait marker of `WaitForSingleObject` — so the wait does not
remain bounded. -/
theorem win32_huge_timeout_is_infinite :
    win32TimeoutMs ⟨4294968, 0⟩ = INFINITE := by decide

/-- C8 (amended): the Win32 `wait_timeout` converts the duration to
milliseconds and clamps it to `u32::MAX`; since `u32::MAX` coincides with
`INFINITE`, any duration of `u32::MAX` milliseconds or more turns into an
unbounded kernel wait rather than a bounded one; the call returns `true` on
`WAIT_OBJECT_0` and `false` on `WAIT_TIMEOUT`. -/
theorem win32_timeout_clamp (d : Duration) (resp : Nat → Nat) :
    win32TimeoutMs d = min (asMillis d) 4294967295 ∧
    (win32TimeoutMs d = INFINITE ↔ 4294967295 ≤ asMillis d) ∧
    (resp (win32TimeoutMs d) = WAITOBJECT0 → waitTimeoutW resp d = .ret true) ∧
    (resp (win32TimeoutMs d) = WAITTIMEDOUT → waitTimeoutW resp d = .ret false) := by
  refine ⟨?_, ?_, ?_, ?_⟩
  · simp only [win32TimeoutMs]; split_ifs with h <;> omega
  · simp only [win32TimeoutMs, INFINITE]; split_ifs with h <;> omega
  · intro h; simp [waitTimeoutW, h]
  · intro h; simp [waitTimeoutW, h, WAITOBJECT0, WAITTIMEDOUT]

/-- Witness for C8 (amended) at `d = ⟨4294968, 0⟩` and a kernel that reports
`WAIT_TIMEOUT` for every parameter. -/
theorem win32_timeout_clamp_witness :
    win32TimeoutMs ⟨4294968, 0⟩ = min (asMillis ⟨4294968, 0⟩) 4294967295 ∧
    (win32TimeoutMs ⟨4294968, 0⟩ = INFINITE ↔
      4294967295 ≤ asMillis ⟨4294968, 0⟩) ∧
    ((fun _ => WAITTIMEDOUT) (win32TimeoutMs ⟨4294968, 0⟩) = WAITOBJECT0 →
      waitTimeoutW (fun _ => WAITTIMEDOUT) ⟨4294968, 0⟩ = .ret true) ∧
    ((fun _ => WAITTIMEDOUT) (win32TimeoutMs ⟨4294968, 0⟩) = WAITTIMEDOUT →
      waitTimeoutW (fun _ => WAITTIMEDOUT) ⟨4294968, 0⟩ = .ret false) :=
  win32_timeout_clamp ⟨4294968, 0⟩ (fun _ => WAITTIMEDOUT)

/-! ### Theorems: atomic binary backend (C9) -/

/-- C9: on the atomic-boolean backend the code contradicts the claimed (and
documented) lock semantics.  The backend starts at `false`; the only swap
`try_wait` ever performs is `true → false`, never the claimed
unlocked-to-locked transition; and the `lock` loop (`while try_wait()`)
returns as soon as `try_wait` fails, so from every starting state `lock`
returns with the state left `false` — in particular a second `lock` while
the first guard is still held returns immediately as well. -/
theorem atomic_lock_never_locks :
    atomicNew = false ∧
    atomicTryWait true = (true, false) ∧
    atomicTryWait false = (false, false) ∧
    lockLoop 2 atomicNew = some false ∧
    lockLoop 2 false = some false ∧
    lockLoop 2 true = some false ∧
    atomicSignal false = true := by
  refine ⟨rfl, rfl, rfl, rfl, rfl, rfl, rfl⟩

/-! ### Theorems: `try_wait` as zero timeout (C10) -/

/-- C10: on the Win32 and Mach backends `try_wait` is definitionally
`wait_timeout` with the zero duration: for every kernel response function
the two calls agree, and the zero duration maps to the zero timeout
parameter (`0` milliseconds; the `(0, 0)` Mach timespec). -/
theorem trywait_is_zero_timeout (rw : Nat → Nat) (rm : Nat × Nat → Int) :
    tryWaitW rw = waitTimeoutW rw ⟨0, 0⟩ ∧
    tryWaitM rm = waitTimeoutM rm ⟨0, 0⟩ ∧
    win32TimeoutMs ⟨0, 0⟩ = 0 ∧
    macTimeSpec ⟨0, 0⟩ = (0, 0) :=
  ⟨rfl, rfl, rfl, rfl⟩

/-- Witness for C10 at concrete kernel responses. -/
theorem trywait_is_zero_timeout_witness :
    tryWaitW (fun _ => WAITOBJECT0) = waitTimeoutW (fun _ => WAITOBJECT0) ⟨0, 0⟩ ∧
    tryWaitM (fun _ => 49) = waitTimeoutM (fun _ => 49) ⟨0, 0⟩ ∧
    win32TimeoutMs ⟨0, 0⟩ = 0 ∧
    macTimeSpec ⟨0, 0⟩ = (0, 0) :=
  trywait_is_zero_timeout (fun _ => WAITOBJECT0) (fun _ => 49)

end Semka
